import Mathlib

/-!
Verification development for the docking orchestration engine
(`processes/tasks.py` and `macromolecules/tasks.py`).

The Python source is shallowly embedded: pure helpers become Lean
functions, Python `float` values are modelled as rationals (`ℚ`, plus an
explicit infinity `XVal` where the source compares against
`float('inf')`), exceptions become an explicit `Except PyExc` result,
and every interaction with the outside world (subprocess invocations,
the filesystem, the database) is supplied by an explicit environment
record so that the orchestration logic itself stays a total function.
-/

/-- Python exceptions distinguished by the pipeline source.  `run_cmd`
and `ProcessExecutor` raise `TimeoutExpired` / `CalledProcessError` /
`RuntimeError`; input validation raises `FileNotFoundError` /
`ValueError`; `xml.etree` raises `ParseError` (modelled as
`xmlParseError`). -/
inductive PyExc where
  | valueError (msg : String)
  | fileNotFoundError (msg : String)
  | runtimeError (msg : String)
  | xmlParseError (msg : String)
  | timeoutExpired (msg : String)
  | calledProcessError (msg : String)
deriving DecidableEq, Repr

/-- Display of an exception, standing in for Python `str(e)` when an
error message is written into a ledger row. -/
def PyExc.msg : PyExc → String
  | .valueError m => m
  | .fileNotFoundError m => m
  | .runtimeError m => m
  | .xmlParseError m => m
  | .timeoutExpired m => m
  | .calledProcessError m => m

/-- A Python float that is either a finite value (modelled as a
rational) or `float('inf')`; `_parse_best_from_xml` initialises its
running best RMSD with `float('inf')`. -/
inductive XVal where
  | fin (q : ℚ)
  | inf
deriving DecidableEq, Repr

/-- Strict `<` on `XVal`, matching IEEE comparison of a finite float
with positive infinity. -/
def XVal.blt : XVal → XVal → Bool
  | .fin a, .fin b => a < b
  | .fin _, .inf => true
  | .inf, _ => false

/-- A float-valued XML attribute of a `<run>` element: absent, or a
string that `float()` parses to the finite value `q`, or a string on
which `float()` raises `ValueError`. -/
inductive FloatAttr where
  | missing
  | num (q : ℚ)
  | bad
deriving DecidableEq, Repr

/-- The integer-valued `run` attribute: absent, or a string `int()`
parses to `n`, or a string on which `int()` raises `ValueError`. -/
inductive IntAttr where
  | missing
  | intv (n : Int)
  | bad
deriving DecidableEq, Repr

/-- One `<run>` element of the AutoDock-GPU report, identified by its
three attributes `reference_rmsd`, `binding_energy` and `run`. -/
structure XmlRun where
  reference_rmsd : FloatAttr
  binding_energy : FloatAttr
  runId : IntAttr
deriving DecidableEq, Repr

/-- The XML report file consumed by `extract_best_from_xml`
(`processes/tasks.py`): the file may be missing (`ensure_exists`
raises), the document may be unparsable (`ET.parse` raises), the
document may lack an `rmsd_table` element, or it exposes the list of
its `<run>` elements. -/
inductive XmlFile where
  | missingFile
  | unparsableDoc
  | noRmsdTable
  | table (runs : List XmlRun)
deriving DecidableEq, Repr

/-- XML text consumed by `MoleculeProcessor._parse_best_from_xml`
(`macromolecules/tasks.py`): either `ET.fromstring` raises
`ParseError`, or the document parses and `findall` yields the `<run>`
elements listed (an absent `rmsd_table` simply yields the empty
list). -/
inductive XmlText where
  | unparsable
  | doc (runs : List XmlRun)
deriving DecidableEq, Repr

/-- Source `processes/tasks.py` lines 85-91: the per-run `try` block parses
`reference_rmsd` / `binding_energy` with `float()` and `run` with
`int()`; a missing attribute (`TypeError`) or an unparsable one
(`ValueError`) makes the whole run record malformed and it is
skipped. -/
def runNumFields (r : XmlRun) : Option (ℚ × ℚ × Int) :=
  match r.reference_rmsd, r.binding_energy, r.runId with
  | .num rm, .num en, .intv i => some (rm, en, i)
  | _, _, _ => none

/-- The well-formed runs of a report, in report order. -/
def goodRuns (runs : List XmlRun) : List (ℚ × ℚ × Int) :=
  runs.filterMap runNumFields

/-- The accumulation loop of `extract_best_from_xml`
(`processes/tasks.py` lines 81-96): running best `(rmsd, energy, run)`
starts at `None` and is replaced whenever a well-formed run has
`rmsd < best_rmsd` (first minimum wins). -/
def extractLoop : List XmlRun → Option (ℚ × ℚ × Int) → Option (ℚ × ℚ × Int)
  | [], best => best
  | r :: rs, best =>
    match runNumFields r with
    | none => extractLoop rs best
    | some (rm, en, i) =>
      match best with
      | none => extractLoop rs (some (rm, en, i))
      | some (brm, ben, bi) =>
        if rm < brm then extractLoop rs (some (rm, en, i))
        else extractLoop rs (some (brm, ben, bi))

/-- Embeds `extract_best_from_xml` (`processes/tasks.py` lines 70-101).
Returns `(best_energy, best_rmsd, best_run)` — note the energy-first
tuple order of the source — or raises: `FileNotFoundError` for a
missing file, `ET.ParseError` for an unparsable document, `ValueError`
when `rmsd_table` is absent or no run is well-formed. -/
def extract_best_from_xml (f : XmlFile) : Except PyExc (ℚ × ℚ × Int) :=
  match f with
  | .missingFile => .error (.fileNotFoundError "Arquivo não encontrado")
  | .unparsableDoc => .error (.xmlParseError "syntax error")
  | .noRmsdTable => .error (.valueError "rmsd_table não encontrado")
  | .table runs =>
    match extractLoop runs none with
    | none => .error (.valueError "Nenhum run válido")
    | some (brm, ben, bi) => .ok (ben, brm, bi)

/-- Models `run.attrib.get("reference_rmsd", "inf")` followed by `float()`:
a missing attribute defaults to infinity, a numeric one yields its
value, a non-numeric one raises (`none` aborts the enclosing parse). -/
def attrRmsd : FloatAttr → Option XVal
  | .missing => some .inf
  | .num q => some (.fin q)
  | .bad => none

/-- Models `run.attrib.get("binding_energy", "0")` followed by `float()`:
a missing attribute defaults to `0`, a numeric one yields its value, a
non-numeric one raises. -/
def attrEnergy : FloatAttr → Option ℚ
  | .missing => some 0
  | .num q => some q
  | .bad => none

/-- The loop of `_parse_best_from_xml` (`macromolecules/tasks.py` lines
404-414): best RMSD starts at `float('inf')`; each run's two attributes
are parsed (raising aborts the whole parse, hence `none`), and a
strictly smaller RMSD replaces the running best pair. -/
def parseLoop : List XmlRun → XVal → Option ℚ → Option (XVal × Option ℚ)
  | [], brm, ben => some (brm, ben)
  | r :: rs, brm, ben =>
    match attrRmsd r.reference_rmsd, attrEnergy r.binding_energy with
    | some rm, some en =>
      if XVal.blt rm brm then parseLoop rs rm (some en)
      else parseLoop rs brm ben
    | _, _ => none

/-- Embeds `MoleculeProcessor._parse_best_from_xml`
(`macromolecules/tasks.py` lines 394-423).  Returns `(best_rmsd, best_energy)`, or `None` when the
document is unparsable, has no runs, has no finite RMSD, or any run
attribute raises `ValueError` (the surrounding `except` catches
`ParseError`, `ValueError` and `KeyError`).  The `ben.getD 0` branch is
unreachable: whenever the best RMSD is finite an energy was stored. -/
def MoleculeProcessor.parse_best_from_xml (t : XmlText) : Option (ℚ × ℚ) :=
  match t with
  | .unparsable => none
  | .doc runs =>
    if runs.isEmpty then none
    else
      match parseLoop runs .inf none with
      | none => none
      | some (.fin brm, ben) => some (brm, ben.getD 0)
      | some (.inf, _) => none

deriving instance DecidableEq for Except

/-- The three-run report used as the worked example in the spec:
runs `(rmsd, energy)` = `(2.1, -5.0), (1.3, -6.2), (4.0, -9.9)`. -/
def exampleRuns : List XmlRun :=
  [ ⟨.num (mkRat 21 10), .num (-5), .intv 1⟩,
    ⟨.num (mkRat 13 10), .num (mkRat (-62) 10), .intv 2⟩,
    ⟨.num 4, .num (mkRat (-99) 10), .intv 3⟩ ]

example : extract_best_from_xml (.table exampleRuns) = .ok (mkRat (-62) 10, mkRat 13 10, 2) := by decide
example : MoleculeProcessor.parse_best_from_xml (.doc exampleRuns) = some (mkRat 13 10, mkRat (-62) 10) := by decide

/-- The relation `XVal.blt` is irreflexive. -/
lemma XVal.blt_irrefl (a : XVal) : XVal.blt a a = false := by
  cases a <;> simp [XVal.blt]

/-- Transitivity of the non-strict order induced by `XVal.blt`
(`blt a b = false` reads `b ≤ a`). -/
lemma XVal.blt_le_trans {a b c : XVal} (h1 : XVal.blt a b = false)
    (h2 : XVal.blt b c = false) : XVal.blt a c = false := by
  cases a <;> cases b <;> cases c <;> simp [XVal.blt] at * <;> linarith

/-- From `b ≤ a` and `a < c` conclude `b ≤ c` (contrapositive form used
by the loop invariant). -/
lemma XVal.blt_chain {a b c : XVal} (h1 : XVal.blt a b = false)
    (h2 : XVal.blt a c = true) : XVal.blt c b = false := by
  cases a <;> cases b <;> cases c <;> simp [XVal.blt] at * <;> linarith

lemma goodRuns_cons_none {r : XmlRun} (h : runNumFields r = none)
    (rs : List XmlRun) : goodRuns (r :: rs) = goodRuns rs := by
  simp [goodRuns, List.filterMap_cons, h]

lemma goodRuns_cons_some {r : XmlRun} {p : ℚ × ℚ × Int}
    (h : runNumFields r = some p) (rs : List XmlRun) :
    goodRuns (r :: rs) = p :: goodRuns rs := by
  simp [goodRuns, List.filterMap_cons, h]

/-- The extraction loop yields `None` exactly when it started with no
best candidate and every remaining run record is malformed. -/
lemma extractLoop_eq_none_iff (runs : List XmlRun) :
    ∀ best, extractLoop runs best = none ↔ (best = none ∧ goodRuns runs = []) := by
  induction runs with
  | nil => intro best; simp [extractLoop, goodRuns]
  | cons r rs ih =>
    intro best
    cases hr : runNumFields r with
    | none => simp [extractLoop, hr, ih, goodRuns_cons_none hr]
    | some p =>
      obtain ⟨rm, en, i⟩ := p
      cases best with
      | none => simp [extractLoop, hr, ih, goodRuns_cons_some hr]
      | some b =>
        obtain ⟨brm, ben, bi⟩ := b
        by_cases hlt : rm < brm <;>
          simp [extractLoop, hr, hlt, ih, goodRuns_cons_some hr]

/-- Loop invariant of `extract_best_from_xml`: the returned triple is
one of the candidates (the running best or a well-formed run) and its
RMSD is minimal among all candidates. -/
lemma extractLoop_min (runs : List XmlRun) :
    ∀ best p, extractLoop runs best = some p →
      p ∈ best.toList ++ goodRuns runs ∧
      ∀ q ∈ best.toList ++ goodRuns runs, p.1 ≤ q.1 := by
  induction runs with
  | nil =>
    intro best p h
    simp [extractLoop] at h
    subst h
    simp [goodRuns]
  | cons r rs ih =>
    intro best p h
    cases hr : runNumFields r with
    | none =>
      rw [extractLoop, hr] at h
      have := ih best p h
      simpa [goodRuns_cons_none hr] using this
    | some c =>
      obtain ⟨rm, en, i⟩ := c
      rw [extractLoop, hr] at h
      cases best with
      | none =>
        have := ih (some (rm, en, i)) p h
        simpa [goodRuns_cons_some hr] using this
      | some b =>
        obtain ⟨brm, ben, bi⟩ := b
        dsimp only at h
        by_cases hlt : rm < brm
        · rw [if_pos hlt] at h
          obtain ⟨hmem, hmin⟩ := ih (some (rm, en, i)) p h
          have hple : p.1 ≤ rm := hmin (rm, en, i) (by simp)
          constructor
          · rcases List.mem_append.1 hmem with h1 | h2
            · have hp : p = (rm, en, i) := by simpa using h1
              exact List.mem_append.2 (Or.inr (by
                rw [goodRuns_cons_some hr]; exact hp ▸ List.mem_cons_self _ _))
            · exact List.mem_append.2 (Or.inr (by
                rw [goodRuns_cons_some hr]; exact List.mem_cons_of_mem _ h2))
          · intro q hq
            rcases List.mem_append.1 hq with hq1 | hq2
            · have hqb : q = (brm, ben, bi) := by simpa using hq1
              subst hqb
              exact le_trans hple (le_of_lt hlt)
            · rw [goodRuns_cons_some hr] at hq2
              rcases List.mem_cons.1 hq2 with rfl | hq3
              · exact hple
              · exact hmin q (List.mem_append.2 (Or.inr hq3))
        · rw [if_neg hlt] at h
          obtain ⟨hmem, hmin⟩ := ih (some (brm, ben, bi)) p h
          have hble : p.1 ≤ brm := hmin (brm, ben, bi) (by simp)
          constructor
          · rcases List.mem_append.1 hmem with h1 | h2
            · exact List.mem_append.2 (Or.inl h1)
            · exact List.mem_append.2 (Or.inr (by
                rw [goodRuns_cons_some hr]; exact List.mem_cons_of_mem _ h2))
          · intro q hq
            rcases List.mem_append.1 hq with hq1 | hq2
            · have hqb : q = (brm, ben, bi) := by simpa using hq1
              subst hqb
              exact hble
            · rw [goodRuns_cons_some hr] at hq2
              rcases List.mem_cons.1 hq2 with rfl | hq3
              · exact le_trans hble (not_lt.1 hlt)
              · exact hmin q (List.mem_append.2 (Or.inr hq3))

/-- A run record none of whose two float attributes raises `ValueError`
inside `_parse_best_from_xml`. -/
def RunClean (r : XmlRun) : Prop :=
  r.reference_rmsd ≠ FloatAttr.bad ∧ r.binding_energy ≠ FloatAttr.bad

instance : DecidablePred RunClean := fun _ => instDecidableAnd

/-- The RMSD `_parse_best_from_xml` computes for a clean run:
the attribute value, or infinity when the attribute is absent. -/
def rmsdX (r : XmlRun) : XVal :=
  match r.reference_rmsd with
  | .num q => .fin q
  | _ => .inf

/-- The energy `_parse_best_from_xml` computes for a clean run:
the attribute value, or `0` when the attribute is absent. -/
def energyVal (r : XmlRun) : ℚ :=
  match r.binding_energy with
  | .num q => q
  | _ => 0

lemma attrRmsd_clean {r : XmlRun} (h : r.reference_rmsd ≠ FloatAttr.bad) :
    attrRmsd r.reference_rmsd = some (rmsdX r) := by
  cases hr : r.reference_rmsd <;> simp [attrRmsd, rmsdX, hr] at *

lemma attrEnergy_clean {r : XmlRun} (h : r.binding_energy ≠ FloatAttr.bad) :
    attrEnergy r.binding_energy = some (energyVal r) := by
  cases hr : r.binding_energy <;> simp [attrEnergy, energyVal, hr] at *

/-- Loop invariant of `_parse_best_from_xml` on a report with no
`ValueError`-raising attribute: the loop completes, its final best pair
is the initial one or comes from a run, and the final best RMSD is a
lower bound for the initial one and for every run's RMSD. -/
lemma parseLoop_spec (runs : List XmlRun) :
    ∀ brm ben, (∀ r ∈ runs, RunClean r) →
      ∃ brm2 ben2, parseLoop runs brm ben = some (brm2, ben2) ∧
        ((brm2 = brm ∧ ben2 = ben) ∨
          ∃ r ∈ runs, rmsdX r = brm2 ∧ ben2 = some (energyVal r)) ∧
        XVal.blt brm brm2 = false ∧
        ∀ r ∈ runs, XVal.blt (rmsdX r) brm2 = false := by
  induction runs with
  | nil =>
    intro brm ben _
    exact ⟨brm, ben, rfl, Or.inl ⟨rfl, rfl⟩, XVal.blt_irrefl brm, by simp⟩
  | cons r rs ih =>
    intro brm ben hclean
    have hr : RunClean r := hclean r (List.mem_cons_self r rs)
    have hrs : ∀ x ∈ rs, RunClean x := fun x hx => hclean x (List.mem_cons_of_mem r hx)
    rw [parseLoop, attrRmsd_clean hr.1, attrEnergy_clean hr.2]
    dsimp only
    by_cases hlt : XVal.blt (rmsdX r) brm = true
    · rw [if_pos hlt]
      obtain ⟨brm2, ben2, heq, hdisj, hle, hall⟩ := ih (rmsdX r) (some (energyVal r)) hrs
      refine ⟨brm2, ben2, heq, ?_, ?_, ?_⟩
      · rcases hdisj with ⟨h1, h2⟩ | ⟨r2, hr2, h3, h4⟩
        · exact Or.inr ⟨r, List.mem_cons_self r rs, h1.symm, h2⟩
        · exact Or.inr ⟨r2, List.mem_cons_of_mem r hr2, h3, h4⟩
      · exact XVal.blt_chain hle hlt
      · intro r2 hr2
        rcases List.mem_cons.1 hr2 with rfl | h2
        · exact hle
        · exact hall r2 h2
    · rw [if_neg hlt]
      have hlt2 : XVal.blt (rmsdX r) brm = false := by
        cases h2 : XVal.blt (rmsdX r) brm
        · rfl
        · exact absurd h2 hlt
      obtain ⟨brm2, ben2, heq, hdisj, hle, hall⟩ := ih brm ben hrs
      refine ⟨brm2, ben2, heq, ?_, hle, ?_⟩
      · rcases hdisj with h1 | ⟨r2, hr2, h3, h4⟩
        · exact Or.inl h1
        · exact Or.inr ⟨r2, List.mem_cons_of_mem r hr2, h3, h4⟩
      intro r2 hr2
      rcases List.mem_cons.1 hr2 with rfl | h2
      · exact XVal.blt_le_trans hlt2 hle
      · exact hall r2 h2

/-- If any run attribute raises `ValueError`, the whole loop of
`_parse_best_from_xml` aborts. -/
lemma parseLoop_bad (runs : List XmlRun) :
    ∀ brm ben r, r ∈ runs →
      (r.reference_rmsd = FloatAttr.bad ∨ r.binding_energy = FloatAttr.bad) →
      parseLoop runs brm ben = none := by
  induction runs with
  | nil => intro brm ben r h; exact absurd h (List.not_mem_nil r)
  | cons r0 rs ih =>
    intro brm ben r hmem hbad
    rcases List.mem_cons.1 hmem with rfl | hmem2
    · rcases hbad with h | h
      · rw [parseLoop, h]
        rfl
      · rw [parseLoop, h]
        cases attrRmsd r.reference_rmsd <;> rfl
    · rw [parseLoop]
      cases h1 : attrRmsd r0.reference_rmsd with
      | none => rfl
      | some rm =>
        cases h2 : attrEnergy r0.binding_energy with
        | none => rfl
        | some en =>
          dsimp only
          by_cases hlt : XVal.blt rm brm = true
          · rw [if_pos hlt]; exact ih _ _ r hmem2 hbad
          · rw [if_neg hlt]; exact ih _ _ r hmem2 hbad

/-- If `rmsdX r` is finite, the run's `reference_rmsd` is numeric. -/
lemma rmsdX_fin {r : XmlRun} {q : ℚ} (h : rmsdX r = XVal.fin q) :
    r.reference_rmsd = FloatAttr.num q := by
  cases hr : r.reference_rmsd <;> simp [rmsdX, hr] at h ⊢ <;> try exact h

/-- Spec of `extract_best_from_xml` on a report with at least one well-formed
run: succeeds with a pair realised by some well-formed run whose RMSD is
minimal. -/
lemma extract_best_spec (runs : List XmlRun) (h : goodRuns runs ≠ []) :
    ∃ en rm i, extract_best_from_xml (.table runs) = .ok (en, rm, i) ∧
      (rm, en, i) ∈ goodRuns runs ∧ ∀ q ∈ goodRuns runs, rm ≤ q.1 := by
  cases hle : extractLoop runs none with
  | none => exact absurd ((extractLoop_eq_none_iff runs none).1 hle).2 h
  | some p =>
    obtain ⟨rm, en, i⟩ := p
    obtain ⟨hmem, hmin⟩ := extractLoop_min runs none _ hle
    refine ⟨en, rm, i, ?_, ?_, ?_⟩
    · rw [extract_best_from_xml, hle]
    · simpa using hmem
    · intro q hq
      exact hmin q (by simpa using hq)

/-- Spec of `_parse_best_from_xml` on a report with no raising attribute and at
least one numeric RMSD: returns the pair of a minimum-RMSD run (where an
absent energy attribute was defaulted to 0). -/
lemma parse_best_spec (runs : List XmlRun) (hclean : ∀ r ∈ runs, RunClean r)
    (hex : ∃ r ∈ runs, ∃ q, r.reference_rmsd = FloatAttr.num q) :
    ∃ rm en, MoleculeProcessor.parse_best_from_xml (.doc runs) = some (rm, en) ∧
      (∃ r ∈ runs, r.reference_rmsd = FloatAttr.num rm ∧ energyVal r = en) ∧
      ∀ r ∈ runs, ∀ q, r.reference_rmsd = FloatAttr.num q → rm ≤ q := by
  obtain ⟨r0, hr0, q0, hq0⟩ := hex
  obtain ⟨brm2, ben2, heq, hdisj, _, hall⟩ := parseLoop_spec runs XVal.inf none hclean
  have hne : runs.isEmpty = false := by
    cases runs with
    | nil => exact absurd hr0 (List.not_mem_nil r0)
    | cons a l => rfl
  have hr0fin : XVal.blt (rmsdX r0) brm2 = false := hall r0 hr0
  have hrx0 : rmsdX r0 = XVal.fin q0 := by simp [rmsdX, hq0]
  obtain ⟨rm, hrm⟩ : ∃ rm, brm2 = XVal.fin rm := by
    cases hb : brm2 with
    | fin rm => exact ⟨rm, rfl⟩
    | inf => rw [hrx0, hb] at hr0fin; simp [XVal.blt] at hr0fin
  subst hrm
  have hdisj2 : ∃ r ∈ runs, rmsdX r = XVal.fin rm ∧ ben2 = some (energyVal r) := by
    rcases hdisj with ⟨h1, _⟩ | h2
    · exact absurd h1 (by simp)
    · exact h2
  obtain ⟨r1, hr1, hrx1, hben⟩ := hdisj2
  refine ⟨rm, energyVal r1, ?_, ⟨r1, hr1, rmsdX_fin hrx1, rfl⟩, ?_⟩
  · rw [MoleculeProcessor.parse_best_from_xml, hne, heq, hben]
    rfl
  · intro r2 hr2 q hq
    have : XVal.blt (rmsdX r2) (XVal.fin rm) = false := hall r2 hr2
    rw [show rmsdX r2 = XVal.fin q by simp [rmsdX, hq]] at this
    simpa [XVal.blt, not_lt] using this

/-- The extraction loop of `extract_best_from_xml` is unchanged when the
malformed run records are removed: they are skipped. -/
lemma extractLoop_filter (runs : List XmlRun) :
    ∀ best, extractLoop (runs.filter (fun r => (runNumFields r).isSome)) best =
      extractLoop runs best := by
  induction runs with
  | nil => intro best; rfl
  | cons r rs ih =>
    intro best
    cases hr : runNumFields r with
    | none =>
      rw [List.filter_cons_of_neg (by simp [hr]), extractLoop, hr]
      exact ih best
    | some c =>
      obtain ⟨rm, en, i⟩ := c
      rw [List.filter_cons_of_pos (by simp [hr]), extractLoop, hr,
        extractLoop, hr]
      cases best with
      | none => exact ih _
      | some b =>
        obtain ⟨brm, ben, bi⟩ := b
        dsimp only
        by_cases hlt : rm < brm
        · rw [if_pos hlt, if_pos hlt]; exact ih _
        · rw [if_neg hlt, if_neg hlt]; exact ih _

/-- C1 (counterexample): the claim fails for
`MoleculeProcessor._parse_best_from_xml`.  A report holding one
malformed run (non-numeric `reference_rmsd`) and one well-formed run
with `(rmsd, energy) = (1.3, -6.2)` makes extraction return nothing
instead of the minimum-RMSD pair `(1.3, -6.2)`: the `ValueError` of the
malformed record is caught around the whole loop, discarding the
well-formed run. -/
theorem C1_counterexample :
    MoleculeProcessor.parse_best_from_xml
        (.doc [⟨.bad, .num (-5), .intv 1⟩,
               ⟨.num (mkRat 13 10), .num (mkRat (-62) 10), .intv 2⟩]) = none ∧
    MoleculeProcessor.parse_best_from_xml
        (.doc [⟨.bad, .num (-5), .intv 1⟩,
               ⟨.num (mkRat 13 10), .num (mkRat (-62) 10), .intv 2⟩]) ≠
      some (mkRat 13 10, mkRat (-62) 10) := by
  constructor
  · rfl
  · decide

/-- C1 (amended): for `extract_best_from_xml` the claim holds as
stated — any report with at least one well-formed run yields the
(energy, RMSD, run) of a minimum-reference-RMSD run, the energy being
the one co-occurring with that run.  For
`MoleculeProcessor._parse_best_from_xml` it holds under the additional
proviso that no run record carries a non-numeric attribute (such a
record aborts the whole parse; absent attributes are defaulted, RMSD to
infinity and energy to 0, rather than the record being skipped).  Both
extractors map the example report
`[(2.1, -5.0), (1.3, -6.2), (4.0, -9.9)]` to the pair `(1.3, -6.2)`. -/
theorem C1_min_rmsd_selection :
    (∀ runs : List XmlRun, (∃ r ∈ runs, runNumFields r ≠ none) →
      ∃ en rm i, extract_best_from_xml (.table runs) = .ok (en, rm, i) ∧
        (rm, en, i) ∈ goodRuns runs ∧ ∀ q ∈ goodRuns runs, rm ≤ q.1) ∧
    (∀ runs : List XmlRun, (∀ r ∈ runs, RunClean r) →
      (∃ r ∈ runs, ∃ q, r.reference_rmsd = FloatAttr.num q) →
      ∃ rm en, MoleculeProcessor.parse_best_from_xml (.doc runs) = some (rm, en) ∧
        (∃ r ∈ runs, r.reference_rmsd = FloatAttr.num rm ∧ energyVal r = en) ∧
        ∀ r ∈ runs, ∀ q, r.reference_rmsd = FloatAttr.num q → rm ≤ q) ∧
    extract_best_from_xml (.table exampleRuns) =
      .ok (mkRat (-62) 10, mkRat 13 10, 2) ∧
    MoleculeProcessor.parse_best_from_xml (.doc exampleRuns) =
      some (mkRat 13 10, mkRat (-62) 10) := by
  refine ⟨?_, ?_, by decide, by decide⟩
  · intro runs hex
    apply extract_best_spec
    obtain ⟨r, hr, hne⟩ := hex
    intro hnil
    rw [goodRuns, List.filterMap_eq_nil_iff] at hnil
    exact hne (hnil r hr)
  · intro runs hclean hex
    exact parse_best_spec runs hclean hex

/-- C1 (witness): the amended theorem applied to the example report. -/
theorem C1_min_rmsd_selection_witness :
    ∃ en rm i, extract_best_from_xml (.table exampleRuns) = .ok (en, rm, i) ∧
      (rm, en, i) ∈ goodRuns exampleRuns ∧ ∀ q ∈ goodRuns exampleRuns, rm ≤ q.1 :=
  C1_min_rmsd_selection.1 exampleRuns
    ⟨⟨.num (mkRat 21 10), .num (-5), .intv 1⟩, by decide, by decide⟩

/-- C5 (counterexample): a totally unparsable report makes
`extract_best_from_xml` raise `ET.ParseError` (an error, not a
"no result"), and a malformed individual run record (non-numeric
`reference_rmsd`) makes `MoleculeProcessor._parse_best_from_xml`
discard the remaining well-formed run `(2.0, -3.0)` instead of skipping
only the malformed record. -/
theorem C5_counterexample :
    extract_best_from_xml .unparsableDoc =
      .error (.xmlParseError "syntax error") ∧
    MoleculeProcessor.parse_best_from_xml
        (.doc [⟨.bad, .num (-7), .intv 1⟩, ⟨.num 2, .num (-3), .intv 2⟩]) =
      none := ⟨rfl, rfl⟩

/-- C5 (amended): in `extract_best_from_xml` malformed individual run
records are skipped (the result equals the result on the report with
only its well-formed records), but a totally unparsable document — or a
report with no valid run — raises an error instead of yielding "no
result".  In `MoleculeProcessor._parse_best_from_xml` a totally
unparsable document yields "no result" (`None`), but a run record with
a non-numeric attribute aborts the whole parse to `None` instead of
being skipped. -/
theorem C5_malformed_runs :
    (∀ runs : List XmlRun,
      extract_best_from_xml (.table runs) =
        extract_best_from_xml (.table (runs.filter (fun r => (runNumFields r).isSome)))) ∧
    extract_best_from_xml .unparsableDoc =
      .error (.xmlParseError "syntax error") ∧
    MoleculeProcessor.parse_best_from_xml .unparsable = none ∧
    (∀ runs : List XmlRun, ∀ r ∈ runs,
      (r.reference_rmsd = FloatAttr.bad ∨ r.binding_energy = FloatAttr.bad) →
      MoleculeProcessor.parse_best_from_xml (.doc runs) = none) := by
  refine ⟨?_, rfl, rfl, ?_⟩
  · intro runs
    rw [extract_best_from_xml, extract_best_from_xml, extractLoop_filter]
  · intro runs r hmem hbad
    cases runs with
    | nil => exact absurd hmem (List.not_mem_nil r)
    | cons a l =>
      rw [MoleculeProcessor.parse_best_from_xml]
      rw [parseLoop_bad (a :: l) XVal.inf none r hmem hbad]
      rfl

/-- C5 (witness): the amended theorem applied to a one-run report whose
energy attribute is non-numeric. -/
theorem C5_malformed_runs_witness :
    MoleculeProcessor.parse_best_from_xml
      (.doc [⟨.missing, .bad, .intv 1⟩]) = none :=
  C5_malformed_runs.2.2.2 [⟨.missing, .bad, .intv 1⟩]
    ⟨.missing, .bad, .intv 1⟩ (by decide) (Or.inr rfl)

/-- Status values of `ProcessStatusEnum` (`processes/models.py`). -/
inductive ProcessStatusEnum where
  | EM_FILA
  | PROCESSANDO
  | CONCLUIDO
  | ERROR
deriving DecidableEq, Repr

/-- One row appended to `csv_rows` by `run_plasmodocking_process`: a
success row (lines 348-356), a per-ligand error row (lines 380-386), or
a per-receptor error row written for each ligand of a receptor whose
`.maps.fld` could not be resolved (lines 311-318).  Receptor rows carry
the `"Receptor error: "`-prefixed message of the source. -/
inductive CsvRow where
  | success (procId typeName rec ligandFile : String)
      (bestEnergy bestRmsd : ℚ) (bestRun : Int)
  | pairError (procId typeName rec ligandFile errMsg : String)
  | receptorError (procId typeName rec ligandFile errMsg : String)
deriving DecidableEq, Repr

def CsvRow.isSuccess : CsvRow → Bool
  | .success .. => true
  | _ => false

def CsvRow.isReceptorError : CsvRow → Bool
  | .receptorError .. => true
  | _ => false

@[simp] lemma CsvRow.isSuccess_success (a b c d : String) (e f : ℚ) (g : Int) :
    (CsvRow.success a b c d e f g).isSuccess = true := rfl

@[simp] lemma CsvRow.isSuccess_pairError (a b c d e : String) :
    (CsvRow.pairError a b c d e).isSuccess = false := rfl

@[simp] lemma CsvRow.isSuccess_receptorError (a b c d e : String) :
    (CsvRow.receptorError a b c d e).isSuccess = false := rfl

@[simp] lemma CsvRow.isReceptorError_success (a b c d : String) (e f : ℚ) (g : Int) :
    (CsvRow.success a b c d e f g).isReceptorError = false := rfl

@[simp] lemma CsvRow.isReceptorError_pairError (a b c d e : String) :
    (CsvRow.pairError a b c d e).isReceptorError = false := rfl

@[simp] lemma CsvRow.isReceptorError_receptorError (a b c d e : String) :
    (CsvRow.receptorError a b c d e).isReceptorError = true := rfl

/-- One `Macromolecule` of the batch, together with the oracle part of
the environment it determines: whether its `pathFilefld` resolves to an
existing `*.maps.fld` file (lines 290-299; `fldErr` is the message of
the exception otherwise), and, per ligand file name, the outcome of
`run_autodock_gpu` for the pair — an exception, or the XML report file
it produced. -/
structure MacIn where
  recName : String
  typeName : String
  fldOk : Bool
  fldErr : String
  dock : String → Except PyExc XmlFile

/-- The inner per-ligand iteration (lines 326-388): run AutoDock-GPU,
then `extract_best_from_xml`; any exception of either step is caught
and becomes a per-ligand error row. -/
def pairOutcome (dockResult : Except PyExc XmlFile) : Except PyExc (ℚ × ℚ × Int) :=
  match dockResult with
  | .error e => .error e
  | .ok xf => extract_best_from_xml xf

/-- Per-ligand loop of one resolved receptor, producing its ledger rows
in order together with the `ok_ligs` / `failed_ligs` counters. -/
def processLigs (procId : String) (m : MacIn) :
    List String → List CsvRow × Nat × Nat
  | [] => ([], 0, 0)
  | lig :: rest =>
    let acc := processLigs procId m rest
    match pairOutcome (m.dock lig) with
    | .ok (en, rm, runId) =>
      (CsvRow.success procId m.typeName m.recName lig en rm runId :: acc.1,
        acc.2.1 + 1, acc.2.2)
    | .error e =>
      (CsvRow.pairError procId m.typeName m.recName lig e.msg :: acc.1,
        acc.2.1, acc.2.2 + 1)

/-- Accumulated outcome of the batch main loop: ledger rows and the
`successful_combinations` / `failed_combinations` / `skipped_receptors`
counters. -/
structure LoopOut where
  rows : List CsvRow
  succ : Nat
  failed : Nat
  skipped : Nat
deriving DecidableEq, Repr

/-- Per-receptor body of the main loop (lines 273-394): a receptor
whose field descriptor does not resolve contributes one receptor-level
error row per ligand, counts all its pairs as failed and itself as
skipped; a resolved receptor is processed ligand by ligand. -/
def processMac (procId : String) (ligands : List String) (m : MacIn) : LoopOut :=
  if m.fldOk then
    let acc := processLigs procId m ligands
    ⟨acc.1, acc.2.1, acc.2.2, 0⟩
  else
    ⟨ligands.map (fun lig =>
        CsvRow.receptorError procId m.typeName m.recName lig
          ("Receptor error: " ++ m.fldErr)),
      0, ligands.length, 1⟩

/-- The batch main loop over all receptors.  The Python loop mutates
accumulators in order; this recursion produces the identical row
concatenation and counter sums. -/
def processAll (procId : String) (ligands : List String) : List MacIn → LoopOut
  | [] => ⟨[], 0, 0, 0⟩
  | m :: ms =>
    let o := processMac procId ligands m
    let rest := processAll procId ligands ms
    ⟨o.rows ++ rest.rows, o.succ + rest.succ, o.failed + rest.failed,
      o.skipped + rest.skipped⟩

/-- The statistics block persisted in `resultado_final` (lines 419-427;
the derived percentage string is a rendering of these counts and is not
modelled separately). -/
structure BatchStats where
  total_combinations : Nat
  successful_combinations : Nat
  failed_combinations : Nat
  skipped_receptors : Nat
  total_receptors : Nat
  total_ligands : Nat
deriving DecidableEq, Repr

/-- Result of `run_plasmodocking_process`: an early `_fail_process`
transition to ERROR for a failed global precondition, or the final
persisted state — status, human-readable summary, statistics and the
CSV ledger. -/
inductive BatchResult where
  | earlyFail (msg : String)
  | finished (status : ProcessStatusEnum) (statusMsg : String)
      (stats : BatchStats) (rows : List CsvRow)
deriving DecidableEq, Repr

/-- The oracle environment of one batch run: tool/SDF existence, the
outcome of `split_sdf_to_pdbqt` (sorted ligand file names, or an
OpenBabel failure), and the macromolecules of the process type in `rec`
order (the source field `rec` is embedded as `recName`; `rec` is
reserved in Lean). -/
structure BatchEnv where
  procId : String
  toolsOk : Bool
  sdfExists : Bool
  splitOutcome : Except String (List String)
  macs : List MacIn

/-- Final status determination (`processes/tasks.py` lines 399-411):
ERROR when no combination succeeded, CONCLUIDO otherwise, with a
summary message that distinguishes complete from partial success. -/
def finalStatusMsg (succ total : Nat) : ProcessStatusEnum × String :=
  if succ = 0 then
    (.ERROR,
      "FALHA TOTAL: Nenhuma combinação receptor-ligante foi processada com sucesso")
  else if succ = total then
    (.CONCLUIDO, "SUCESSO COMPLETO: Todas as combinações foram processadas")
  else
    (.CONCLUIDO, "SUCESSO PARCIAL: " ++ toString succ ++ "/" ++ toString total
      ++ " combinações processadas")

/-- Embeds `run_plasmodocking_process` (`processes/tasks.py` lines 196-479).
Global precondition failures mark the process ERROR and return early;
otherwise the main loop runs to completion and the final status is
ERROR exactly when `successful_combinations == 0`, CONCLUIDO otherwise,
with the summary message distinguishing complete from partial
success. -/
def run_plasmodocking_process (env : BatchEnv) : BatchResult :=
  if env.toolsOk = false then .earlyFail "ferramenta não encontrada" else
  if env.sdfExists = false then .earlyFail "SDF não encontrado" else
  match env.splitOutcome with
  | .error e => .earlyFail ("Falha no OpenBabel: " ++ e)
  | .ok ligands =>
    if env.macs.isEmpty || ligands.isEmpty then
      .earlyFail "Sem macromoléculas ou ligantes para processar"
    else
      let o := processAll env.procId ligands env.macs
      let total := env.macs.length * ligands.length
      .finished (finalStatusMsg o.succ total).1 (finalStatusMsg o.succ total).2
        ⟨total, o.succ, o.failed, o.skipped, env.macs.length, ligands.length⟩
        o.rows

lemma isEmpty_false_of_ne_nil {α : Type} {l : List α} (h : l ≠ []) :
    l.isEmpty = false := by
  cases l with
  | nil => exact absurd rfl h
  | cons a t => rfl

/-- Row/counter bookkeeping of the per-ligand loop: one row per ligand,
the two counters count exactly the success and non-success rows, no
receptor-level error rows are produced here, and the counters sum to
the number of ligands. -/
lemma processLigs_spec (procId : String) (m : MacIn) (ls : List String) :
    (processLigs procId m ls).1.length = ls.length ∧
    (processLigs procId m ls).1.countP CsvRow.isSuccess = (processLigs procId m ls).2.1 ∧
    (processLigs procId m ls).1.countP (fun r => ! r.isSuccess) = (processLigs procId m ls).2.2 ∧
    (processLigs procId m ls).1.countP CsvRow.isReceptorError = 0 ∧
    (processLigs procId m ls).2.1 + (processLigs procId m ls).2.2 = ls.length := by
  induction ls with
  | nil => refine ⟨rfl, rfl, rfl, rfl, rfl⟩
  | cons lig rest ih =>
    obtain ⟨h1, h2, h3, h4, h5⟩ := ih
    cases hp : pairOutcome (m.dock lig) with
    | ok v =>
      obtain ⟨en, rm, runId⟩ := v
      simp only [processLigs, hp]
      refine ⟨?_, ?_, ?_, ?_, ?_⟩ <;>
        simp [List.countP_cons, h1, h2, h3, h4] <;> omega
    | error e =>
      simp only [processLigs, hp]
      refine ⟨?_, ?_, ?_, ?_, ?_⟩ <;>
        simp [List.countP_cons, h1, h2, h3, h4] <;> omega

/-- Row/counter bookkeeping of one receptor iteration. -/
lemma processMac_spec (procId : String) (ligands : List String) (m : MacIn) :
    (processMac procId ligands m).rows.length = ligands.length ∧
    (processMac procId ligands m).rows.countP CsvRow.isSuccess =
      (processMac procId ligands m).succ ∧
    (processMac procId ligands m).rows.countP (fun r => ! r.isSuccess) =
      (processMac procId ligands m).failed ∧
    (processMac procId ligands m).rows.countP CsvRow.isReceptorError =
      (if m.fldOk then 0 else ligands.length) ∧
    (processMac procId ligands m).skipped = (if m.fldOk then 0 else 1) ∧
    (processMac procId ligands m).succ + (processMac procId ligands m).failed =
      ligands.length := by
  by_cases hf : m.fldOk
  · obtain ⟨h1, h2, h3, h4, h5⟩ := processLigs_spec procId m ligands
    simp only [processMac, if_pos hf]
    exact ⟨h1, h2, h3, by simp [h4, hf], by simp [hf], h5⟩
  · simp only [processMac, if_neg hf]
    refine ⟨by simp, ?_, ?_, ?_, by simp [hf], by simp⟩ <;>
      simp [List.countP_map, Function.comp_def, hf]

/-- Row/counter bookkeeping of the whole main loop: one row per
(receptor, ligand) pair; the two counters count exactly the success and
non-success rows; receptor-level error rows are contributed exactly by
the unresolved receptors, one per ligand; the skipped counter counts the
unresolved receptors; successes and failures sum to the pair total. -/
lemma processAll_spec (procId : String) (ligands : List String) (macs : List MacIn) :
    (processAll procId ligands macs).rows.length = macs.length * ligands.length ∧
    (processAll procId ligands macs).rows.countP CsvRow.isSuccess =
      (processAll procId ligands macs).succ ∧
    (processAll procId ligands macs).rows.countP (fun r => ! r.isSuccess) =
      (processAll procId ligands macs).failed ∧
    (processAll procId ligands macs).rows.countP CsvRow.isReceptorError =
      (macs.countP (fun m => ! m.fldOk)) * ligands.length ∧
    (processAll procId ligands macs).skipped = macs.countP (fun m => ! m.fldOk) ∧
    (processAll procId ligands macs).succ + (processAll procId ligands macs).failed =
      macs.length * ligands.length := by
  induction macs with
  | nil => refine ⟨by simp [processAll], rfl, rfl, by simp [processAll], rfl, by simp [processAll]⟩
  | cons m ms ih =>
    obtain ⟨i1, i2, i3, i4, i5, i6⟩ := ih
    obtain ⟨h1, h2, h3, h4, h5, h6⟩ := processMac_spec procId ligands m
    have key : processAll procId ligands (m :: ms) =
        ⟨(processMac procId ligands m).rows ++ (processAll procId ligands ms).rows,
         (processMac procId ligands m).succ + (processAll procId ligands ms).succ,
         (processMac procId ligands m).failed + (processAll procId ligands ms).failed,
         (processMac procId ligands m).skipped + (processAll procId ligands ms).skipped⟩ := rfl
    rw [key]
    dsimp only
    refine ⟨?_, ?_, ?_, ?_, ?_, ?_⟩
    · rw [List.length_append, h1, i1, List.length_cons, Nat.succ_mul]
      omega
    · rw [List.countP_append, h2, i2]
    · rw [List.countP_append, h3, i3]
    · rw [List.countP_append, h4, i4, List.countP_cons]
      by_cases hf : m.fldOk
      · simp [hf]
      · have hf2 : m.fldOk = false := by simpa using hf
        simp only [hf2, Nat.add_mul]
        rw [if_neg (by simp), if_pos (by simp)]
        generalize (List.countP (fun m => ! m.fldOk) ms) * ligands.length = a
        omega
    · rw [h5, i5, List.countP_cons]
      by_cases hf : m.fldOk <;> simp [hf] <;> omega
    · rw [List.length_cons, Nat.succ_mul]
      generalize hg : ms.length * ligands.length = a at i6
      omega

lemma countP_not_add {α : Type} (p : α → Bool) (l : List α) :
    l.countP p + l.countP (fun a => ! p a) = l.length := by
  induction l with
  | nil => rfl
  | cons a t ih =>
    rw [List.countP_cons, List.countP_cons]
    cases h : p a <;> simp [h] <;> omega

lemma finalStatusMsg_ERROR_iff (succ total : Nat) :
    (finalStatusMsg succ total).1 = ProcessStatusEnum.ERROR ↔ succ = 0 := by
  by_cases h : succ = 0
  · simp [finalStatusMsg, h]
  · rw [finalStatusMsg, if_neg h]
    by_cases h2 : succ = total
    · rw [if_pos h2]; simp [h]
    · rw [if_neg h2]; simp [h]

lemma finalStatusMsg_CONCLUIDO {succ : Nat} (total : Nat) (h : succ ≠ 0) :
    (finalStatusMsg succ total).1 = ProcessStatusEnum.CONCLUIDO := by
  rw [finalStatusMsg, if_neg h]
  by_cases h2 : succ = total
  · rw [if_pos h2]
  · rw [if_neg h2]

/-- When every global precondition passes, `run_plasmodocking_process`
runs the main loop and persists the final status, statistics and
ledger. -/
lemma run_plasmodocking_finished (env : BatchEnv) (ligands : List String)
    (htools : env.toolsOk = true) (hsdf : env.sdfExists = true)
    (hsplit : env.splitOutcome = Except.ok ligands)
    (hmacs : env.macs ≠ []) (hligs : ligands ≠ []) :
    run_plasmodocking_process env =
      .finished
        (finalStatusMsg (processAll env.procId ligands env.macs).succ
          (env.macs.length * ligands.length)).1
        (finalStatusMsg (processAll env.procId ligands env.macs).succ
          (env.macs.length * ligands.length)).2
        ⟨env.macs.length * ligands.length,
          (processAll env.procId ligands env.macs).succ,
          (processAll env.procId ligands env.macs).failed,
          (processAll env.procId ligands env.macs).skipped,
          env.macs.length, ligands.length⟩
        (processAll env.procId ligands env.macs).rows := by
  rw [run_plasmodocking_process, htools, hsdf, hsplit]
  simp [isEmpty_false_of_ne_nil hmacs, isEmpty_false_of_ne_nil hligs]

/-- C2: for every batch run passing its global preconditions, the final
persisted status is ERROR (the FAILED state) iff zero (receptor,
ligand) pair-attempts succeeded; any nonzero success count yields
CONCLUIDO (the DONE state) even with failures present; and the
persisted statistics carry the exact counts of successful and failed
pair-attempts as recorded in the ledger. -/
theorem C2_batch_final_status (env : BatchEnv) (ligands : List String)
    (htools : env.toolsOk = true) (hsdf : env.sdfExists = true)
    (hsplit : env.splitOutcome = Except.ok ligands)
    (hmacs : env.macs ≠ []) (hligs : ligands ≠ []) :
    ∃ st msg stats rows,
      run_plasmodocking_process env = .finished st msg stats rows ∧
      ((st = ProcessStatusEnum.ERROR) ↔ stats.successful_combinations = 0) ∧
      (0 < stats.successful_combinations → st = ProcessStatusEnum.CONCLUIDO) ∧
      stats.successful_combinations = rows.countP CsvRow.isSuccess ∧
      stats.failed_combinations = rows.countP (fun r => ! r.isSuccess) := by
  obtain ⟨_, h2, h3, _, _, _⟩ := processAll_spec env.procId ligands env.macs
  refine ⟨_, _, _, _,
    run_plasmodocking_finished env ligands htools hsdf hsplit hmacs hligs,
    finalStatusMsg_ERROR_iff _ _, ?_, h2.symm, h3.symm⟩
  intro h
  exact finalStatusMsg_CONCLUIDO _ (Nat.pos_iff_ne_zero.1 h)

/-- C3: in a batch passing its global preconditions with `R` receptors
and `L` ligands, if exactly `k` receptors fail field-descriptor
resolution then the ledger contains exactly `k * L` receptor-level
error rows, the remaining `(R - k) * L` rows are individually attempted
pairs (success or per-pair error), and the skip does not abort the
batch: the skipped receptors are merely counted in the statistics. -/
theorem C3_receptor_skip_ledger (env : BatchEnv) (ligands : List String)
    (htools : env.toolsOk = true) (hsdf : env.sdfExists = true)
    (hsplit : env.splitOutcome = Except.ok ligands)
    (hmacs : env.macs ≠ []) (hligs : ligands ≠ []) :
    ∃ st msg stats rows,
      run_plasmodocking_process env = .finished st msg stats rows ∧
      rows.countP CsvRow.isReceptorError =
        (env.macs.countP (fun m => ! m.fldOk)) * ligands.length ∧
      rows.countP (fun r => ! r.isReceptorError) =
        (env.macs.length - env.macs.countP (fun m => ! m.fldOk)) * ligands.length ∧
      stats.skipped_receptors = env.macs.countP (fun m => ! m.fldOk) := by
  obtain ⟨h1, _, _, h4, h5, _⟩ := processAll_spec env.procId ligands env.macs
  refine ⟨_, _, _, _,
    run_plasmodocking_finished env ligands htools hsdf hsplit hmacs hligs,
    h4, ?_, h5⟩
  have hadd := countP_not_add CsvRow.isReceptorError
    (processAll env.procId ligands env.macs).rows
  have hk : env.macs.countP (fun m => ! m.fldOk) ≤ env.macs.length :=
    List.countP_le_length _
  have hble : (env.macs.countP (fun m => ! m.fldOk)) * ligands.length ≤
      env.macs.length * ligands.length :=
    Nat.mul_le_mul_right _ hk
  rw [Nat.sub_mul]
  generalize hA : env.macs.length * ligands.length = A at h1 hble
  generalize hB : (env.macs.countP (fun m => ! m.fldOk)) * ligands.length = B
    at h4 hble
  omega

/-- C9 (implicit invariant): after the batch main loop the statistics
satisfy `successful + failed = total = R * L`, and every (receptor,
ligand) pair — including the pairs of skipped receptors — contributes
exactly one CSV ledger row. -/
theorem C9_ledger_totals (env : BatchEnv) (ligands : List String)
    (htools : env.toolsOk = true) (hsdf : env.sdfExists = true)
    (hsplit : env.splitOutcome = Except.ok ligands)
    (hmacs : env.macs ≠ []) (hligs : ligands ≠ []) :
    ∃ st msg stats rows,
      run_plasmodocking_process env = .finished st msg stats rows ∧
      stats.successful_combinations + stats.failed_combinations =
        stats.total_combinations ∧
      stats.total_combinations = env.macs.length * ligands.length ∧
      rows.length = stats.total_combinations := by
  obtain ⟨h1, _, _, _, _, h6⟩ := processAll_spec env.procId ligands env.macs
  exact ⟨_, _, _, _,
    run_plasmodocking_finished env ligands htools hsdf hsplit hmacs hligs,
    h6, rfl, h1⟩

/-- Concrete batch environment for the C2 witness: one receptor whose
field descriptor resolves and whose single docking run succeeds. -/
def envW2 : BatchEnv :=
  ⟨"proc-1", true, true, .ok ["ligand1.pdbqt"],
    [⟨"1abc", "falciparum", true, "",
      fun _ => .ok (.table [⟨.num 1, .num (-5), .intv 1⟩])⟩]⟩

/-- C2 (witness): the theorem applied to `envW2`. -/
theorem C2_batch_final_status_witness :
    ∃ st msg stats rows,
      run_plasmodocking_process envW2 = .finished st msg stats rows ∧
      ((st = ProcessStatusEnum.ERROR) ↔ stats.successful_combinations = 0) ∧
      (0 < stats.successful_combinations → st = ProcessStatusEnum.CONCLUIDO) ∧
      stats.successful_combinations = rows.countP CsvRow.isSuccess ∧
      stats.failed_combinations = rows.countP (fun r => ! r.isSuccess) :=
  C2_batch_final_status envW2 ["ligand1.pdbqt"] rfl rfl rfl
    (List.cons_ne_nil _ _) (List.cons_ne_nil _ _)

/-- Concrete batch environment for the C3 witness: two receptors, the
second of which has no resolvable field descriptor, and two ligands. -/
def envW3 : BatchEnv :=
  ⟨"proc-2", true, true, .ok ["lig1.pdbqt", "lig2.pdbqt"],
    [⟨"2xyz", "vivax", true, "",
      fun _ => .error (.runtimeError "autodock_gpu_lig timeout after 3600s")⟩,
     ⟨"3def", "vivax", false, "Nenhum .maps.fld encontrado",
      fun _ => .ok .missingFile⟩]⟩

/-- C3 (witness): the theorem applied to `envW3`. -/
theorem C3_receptor_skip_ledger_witness :
    ∃ st msg stats rows,
      run_plasmodocking_process envW3 = .finished st msg stats rows ∧
      rows.countP CsvRow.isReceptorError =
        (envW3.macs.countP (fun m => ! m.fldOk)) * 2 ∧
      rows.countP (fun r => ! r.isReceptorError) =
        (envW3.macs.length - envW3.macs.countP (fun m => ! m.fldOk)) * 2 ∧
      stats.skipped_receptors = envW3.macs.countP (fun m => ! m.fldOk) := by
  have h := C3_receptor_skip_ledger envW3 ["lig1.pdbqt", "lig2.pdbqt"] rfl rfl rfl
    (List.cons_ne_nil _ _) (List.cons_ne_nil _ _)
  simpa using h

/-- Concrete batch environment for the C9 witness: one resolved
receptor with one failing pair, one unresolved receptor. -/
def envW9 : BatchEnv :=
  ⟨"proc-3", true, true, .ok ["ligA.pdbqt"],
    [⟨"4ghi", "malariae", true, "",
      fun _ => .ok (.table [])⟩,
     ⟨"5jkl", "malariae", false, "Arquivo .maps.fld não existe",
      fun _ => .ok .missingFile⟩]⟩

/-- C9 (witness): the theorem applied to `envW9`. -/
theorem C9_ledger_totals_witness :
    ∃ st msg stats rows,
      run_plasmodocking_process envW9 = .finished st msg stats rows ∧
      stats.successful_combinations + stats.failed_combinations =
        stats.total_combinations ∧
      stats.total_combinations = envW9.macs.length * 1 ∧
      rows.length = stats.total_combinations := by
  have h := C9_ledger_totals envW9 ["ligA.pdbqt"] rfl rfl rfl
    (List.cons_ne_nil _ _) (List.cons_ne_nil _ _)
  simpa using h

/-- The whitespace characters recognised by Python's `str.split()` /
`str.strip()` (space, tab, newline, carriage return, vertical tab,
form feed). -/
def pyIsSpace (c : Char) : Bool :=
  c = ' ' || c = '\t' || c = '\n' || c = '\r' || c = '\x0b' || c = '\x0c'

/-- Helper of `pyTokens`: splits a character list on whitespace runs,
discarding empty fields, accumulating the current token reversed. -/
def splitWsAux : List Char → List Char → List (List Char)
  | [], acc => if acc.isEmpty then [] else [acc.reverse]
  | c :: cs, acc =>
    if pyIsSpace c then
      if acc.isEmpty then splitWsAux cs [] else acc.reverse :: splitWsAux cs []
    else splitWsAux cs (c :: acc)

/-- Models `s.replace(",", " ").split()` as used by `_parse_triplet_int` /
`_parse_triplet_float` (`macromolecules/tasks.py` lines 105, 113):
commas become spaces, then the string is split on whitespace with empty
fields dropped (the source's extra `if p` filter is a no-op). -/
def pyTokens (s : String) : List String :=
  (splitWsAux (s.toList.map (fun c => if c = ',' then ' ' else c)) []).map
    (fun l => String.mk l)

/-- Strip leading and trailing Python whitespace, as `str.strip()` and
the implicit stripping of `int()` / `float()` do. -/
def pyStrip (l : List Char) : List Char :=
  ((l.dropWhile pyIsSpace).reverse.dropWhile pyIsSpace).reverse

/-- Value of a non-empty all-digit character list, `none` when a
non-digit occurs. -/
def digitsVal : List Char → Nat → Option Nat
  | [], acc => some acc
  | c :: cs, acc =>
    if c.isDigit then digitsVal cs (acc * 10 + (c.toNat - 48)) else none

/-- Python `int(s)` on a decimal literal: optional surrounding
whitespace, optional sign, then one or more digits.  (Numeric-literal
underscores and non-decimal bases are outside the model.) -/
def pyInt (s : String) : Option Int :=
  match pyStrip s.toList with
  | [] => none
  | '+' :: rest =>
    if rest.isEmpty then none else (digitsVal rest 0).map Int.ofNat
  | '-' :: rest =>
    if rest.isEmpty then none else (digitsVal rest 0).map (fun n => -(n : Int))
  | cs => (digitsVal cs 0).map Int.ofNat

/-- Value of an unsigned decimal mantissa-and-exponent literal,
`m * 10 ^ e` with `e` possibly negative, built with `mkRat`. -/
def qOfMantExp (m : Int) (e : Int) : ℚ :=
  if 0 ≤ e then ((m * 10 ^ e.toNat : Int) : ℚ) else mkRat m (10 ^ (-e).toNat)

/-- Numeric value of an all-digit list (total; callers guarantee
digithood). -/
def natOfDigits (l : List Char) : Nat :=
  l.foldl (fun a c => a * 10 + (c.toNat - 48)) 0

/-- Optionally signed digit run (exponent body of a float literal). -/
def parseSignedDigits : List Char → Option Int
  | [] => none
  | '+' :: ds => if ds.isEmpty then none else (digitsVal ds 0).map Int.ofNat
  | '-' :: ds => if ds.isEmpty then none else (digitsVal ds 0).map (fun n => -(n : Int))
  | ds => (digitsVal ds 0).map Int.ofNat

/-- Exponent suffix of a float literal: empty means exponent 0, else
`e`/`E`, an optional sign and one or more digits. -/
def parseExpSuffix : List Char → Option Int
  | [] => some 0
  | 'e' :: rest => parseSignedDigits rest
  | 'E' :: rest => parseSignedDigits rest
  | _ => none

/-- Unsigned body of a Python float literal:
`digits [. digits] [exp]` or `. digits [exp]`.  The value is the
mantissa scaled by the decimal exponent minus the fraction length.
(`inf` / `nan` literals are outside the model: the grid and coordinate
texts of this pipeline carry finite decimals.) -/
def parseUnsignedFloat (cs : List Char) : Option ℚ :=
  let intPart := cs.takeWhile Char.isDigit
  let rest1 := cs.dropWhile Char.isDigit
  match rest1 with
  | '.' :: rest2 =>
    let fracPart := rest2.takeWhile Char.isDigit
    let rest3 := rest2.dropWhile Char.isDigit
    if intPart.isEmpty && fracPart.isEmpty then none
    else
      (parseExpSuffix rest3).map (fun e =>
        qOfMantExp (natOfDigits (intPart ++ fracPart)) (e - fracPart.length))
  | _ =>
    if intPart.isEmpty then none
    else (parseExpSuffix rest1).map (fun e => qOfMantExp (natOfDigits intPart) e)

/-- Python `float(s)` on a finite decimal literal: optional surrounding
whitespace, optional sign, unsigned body. -/
def pyFloat (s : String) : Option ℚ :=
  match pyStrip s.toList with
  | [] => none
  | '+' :: rest => parseUnsignedFloat rest
  | '-' :: rest => (parseUnsignedFloat rest).map Neg.neg
  | cs => parseUnsignedFloat cs

example : pyFloat "2.5" = some (mkRat 25 10) := by decide
example : pyFloat " -0.5 " = some (mkRat (-5) 10) := by decide
example : pyFloat "1e2" = some 100 := by decide
example : pyFloat "" = none := by decide
example : pyFloat "abc" = none := by decide
example : pyFloat "1.2.3" = none := by decide
example : pyInt "60" = some 60 := by decide
example : pyInt "-60" = some (-60) := by decide
example : pyInt "6.0" = none := by decide
example : pyTokens "60,60 60" = ["60", "60", "60"] := by decide

/-- Embeds `GridParams._parse_triplet_int` (`macromolecules/tasks.py`
lines 102-108): split on comma/whitespace; any token count other than three
raises `ValueError`; then each token must `int()`-parse (the first
failure raises `ValueError` from `int`). -/
def GridParams.parse_triplet_int (s : String) : Except PyExc (Int × Int × Int) :=
  match pyTokens s with
  | [a, b, c] =>
    match pyInt a, pyInt b, pyInt c with
    | some x, some y, some z => .ok (x, y, z)
    | _, _, _ => .error (.valueError "invalid literal for int() with base 10")
  | _ => .error (.valueError ("Expected 3 integers, got: " ++ s))

/-- Embeds `GridParams._parse_triplet_float` (`macromolecules/tasks.py`
lines 110-116): as above with `float()`. -/
def GridParams.parse_triplet_float (s : String) : Except PyExc (ℚ × ℚ × ℚ) :=
  match pyTokens s with
  | [a, b, c] =>
    match pyFloat a, pyFloat b, pyFloat c with
    | some x, some y, some z => .ok (x, y, z)
    | _, _, _ => .error (.valueError "could not convert string to float")
  | _ => .error (.valueError ("Expected 3 floats, got: " ++ s))

/-- C6: for every grid-size or grid-center text whose comma/whitespace
token count differs from three, triplet parsing raises `ValueError`
(the invalid-spec format error) — these parsers are pure string
functions, so no external tool is invoked; and with exactly three
tokens, parsing succeeds precisely when every token parses as an
integer (for size) or a float (for center). -/
theorem C6_triplet_format (s : String) (h : (pyTokens s).length ≠ 3) :
    ((∃ m, GridParams.parse_triplet_int s = .error (.valueError m)) ∧
     (∃ m, GridParams.parse_triplet_float s = .error (.valueError m))) ∧
    (∀ t : String, ∀ a b c : String, pyTokens t = [a, b, c] →
      (((∃ v, GridParams.parse_triplet_int t = .ok v) ↔
          (pyInt a).isSome ∧ (pyInt b).isSome ∧ (pyInt c).isSome) ∧
       ((∃ v, GridParams.parse_triplet_float t = .ok v) ↔
          (pyFloat a).isSome ∧ (pyFloat b).isSome ∧ (pyFloat c).isSome))) := by
  constructor
  · have hne : ∀ a b c : String, pyTokens s ≠ [a, b, c] := by
      intro a b c hcon
      exact h (by rw [hcon]; rfl)
    constructor
    · refine ⟨"Expected 3 integers, got: " ++ s, ?_⟩
      rw [GridParams.parse_triplet_int]
      cases htk : pyTokens s with
      | nil => rfl
      | cons a t1 =>
        cases t1 with
        | nil => rfl
        | cons b t2 =>
          cases t2 with
          | nil => rfl
          | cons c t3 =>
            cases t3 with
            | nil => exact absurd htk (hne a b c)
            | cons d t4 => rfl
    · refine ⟨"Expected 3 floats, got: " ++ s, ?_⟩
      rw [GridParams.parse_triplet_float]
      cases htk : pyTokens s with
      | nil => rfl
      | cons a t1 =>
        cases t1 with
        | nil => rfl
        | cons b t2 =>
          cases t2 with
          | nil => rfl
          | cons c t3 =>
            cases t3 with
            | nil => exact absurd htk (hne a b c)
            | cons d t4 => rfl
  · intro t a b c htk
    constructor
    · rw [GridParams.parse_triplet_int, htk]
      constructor
      · intro hv
        cases ha : pyInt a <;> cases hb : pyInt b <;> cases hc : pyInt c <;>
          simp [ha, hb, hc] at hv ⊢
      · rintro ⟨ha, hb, hc⟩
        obtain ⟨x, hx⟩ := Option.isSome_iff_exists.1 ha
        obtain ⟨y, hy⟩ := Option.isSome_iff_exists.1 hb
        obtain ⟨z, hz⟩ := Option.isSome_iff_exists.1 hc
        exact ⟨(x, y, z), by dsimp only; rw [hx, hy, hz]⟩
    · rw [GridParams.parse_triplet_float, htk]
      constructor
      · intro hv
        cases ha : pyFloat a <;> cases hb : pyFloat b <;> cases hc : pyFloat c <;>
          simp [ha, hb, hc] at hv ⊢
      · rintro ⟨ha, hb, hc⟩
        obtain ⟨x, hx⟩ := Option.isSome_iff_exists.1 ha
        obtain ⟨y, hy⟩ := Option.isSome_iff_exists.1 hb
        obtain ⟨z, hz⟩ := Option.isSome_iff_exists.1 hc
        exact ⟨(x, y, z), by dsimp only; rw [hx, hy, hz]⟩

/-- C6 (witness): the theorem applied to the two-token text "60 60". -/
theorem C6_triplet_format_witness :
    ((∃ m, GridParams.parse_triplet_int "60 60" = .error (.valueError m)) ∧
     (∃ m, GridParams.parse_triplet_float "60 60" = .error (.valueError m))) ∧
    (∀ t : String, ∀ a b c : String, pyTokens t = [a, b, c] →
      (((∃ v, GridParams.parse_triplet_int t = .ok v) ↔
          (pyInt a).isSome ∧ (pyInt b).isSome ∧ (pyInt c).isSome) ∧
       ((∃ v, GridParams.parse_triplet_float t = .ok v) ↔
          (pyFloat a).isSome ∧ (pyFloat b).isSome ∧ (pyFloat c).isSome))) :=
  C6_triplet_format "60 60" (by decide)

/-- Python slice `line[a:b]` on a character list. -/
def pySlice (l : List Char) (a b : Nat) : List Char :=
  (l.take b).drop a

/-- One line of the structure file as scanned by
`calculate_ligand_center` (`macromolecules/tasks.py` lines 237-244):
the line must start with `ATOM` or `HETATM`, be at least 54 characters
long (as Python iterates it, trailing newline included), and its three
fixed-width coordinate columns `[30:38]`, `[38:46]`, `[46:54]` must
each `float()`-parse after stripping; otherwise the line contributes
nothing. -/
def parseCoordLine (line : List Char) : Option (ℚ × ℚ × ℚ) :=
  if ("ATOM".toList.isPrefixOf line || "HETATM".toList.isPrefixOf line)
      && decide (54 ≤ line.length) then
    match pyFloat (String.mk (pySlice line 30 38)),
        pyFloat (String.mk (pySlice line 38 46)),
        pyFloat (String.mk (pySlice line 46 54)) with
    | some x, some y, some z => some (x, y, z)
    | _, _, _ => none
  else none

/-- Embeds `MoleculeProcessor.calculate_ligand_center`
(`macromolecules/tasks.py` lines 229-259): returns `None` for a missing file; collects the
well-formed coordinate records, skipping malformed lines; returns the
coordinate-wise average, or `None` when no record matched.  (The
enclosing catch-all `except` never fires in this total model.) -/
def MoleculeProcessor.calculate_ligand_center (fileExists : Bool)
    (lines : List (List Char)) : Option (ℚ × ℚ × ℚ) :=
  if fileExists = false then none
  else
    match lines.filterMap parseCoordLine with
    | [] => none
    | coords =>
      some ((coords.map (fun p => p.1)).sum / coords.length,
        (coords.map (fun p => p.2.1)).sum / coords.length,
        (coords.map (fun p => p.2.2)).sum / coords.length)

lemma filterMap_filter_isSome {α β : Type} (f : α → Option β) (l : List α) :
    (l.filter (fun a => (f a).isSome)).filterMap f = l.filterMap f := by
  induction l with
  | nil => rfl
  | cons a t ih =>
    cases hf : f a with
    | none =>
      rw [List.filter_cons_of_neg (by simp [hf]), List.filterMap_cons_none hf, ih]
    | some b =>
      rw [List.filter_cons_of_pos (by simp [hf]), List.filterMap_cons_some hf,
        List.filterMap_cons_some hf, ih]

/-- C7: centroid computation returns "no result" (`None`), not an
error, whenever zero well-formed coordinate records exist; and
malformed individual lines are skipped without aborting the scan — the
result only depends on the well-formed lines. -/
theorem C7_centroid_no_records (fileExists : Bool) (lines : List (List Char))
    (h : lines.filterMap parseCoordLine = []) :
    MoleculeProcessor.calculate_ligand_center fileExists lines = none ∧
    ∀ (fe : Bool) (ls : List (List Char)),
      MoleculeProcessor.calculate_ligand_center fe ls =
        MoleculeProcessor.calculate_ligand_center fe
          (ls.filter (fun l => (parseCoordLine l).isSome)) := by
  constructor
  · rw [MoleculeProcessor.calculate_ligand_center]
    cases fileExists
    · rfl
    · rw [if_neg (by simp), h]
  · intro fe ls
    rw [MoleculeProcessor.calculate_ligand_center,
      MoleculeProcessor.calculate_ligand_center,
      filterMap_filter_isSome]

/-- C7 (witness): the theorem applied to a two-line file with no
coordinate record (a header line and a too-short `ATOM` line). -/
theorem C7_centroid_no_records_witness :
    MoleculeProcessor.calculate_ligand_center true
      ["REMARK hello".toList, "ATOM 1".toList] = none ∧
    ∀ (fe : Bool) (ls : List (List Char)),
      MoleculeProcessor.calculate_ligand_center fe ls =
        MoleculeProcessor.calculate_ligand_center fe
          (ls.filter (fun l => (parseCoordLine l).isSome)) :=
  C7_centroid_no_records true ["REMARK hello".toList, "ATOM 1".toList] (by decide)

/-- Models `Path(name).stem`: the file name without its final suffix.  (The
Python corner case of a leading-dot name with no other dot does not
arise for the receptor/ligand file names of this pipeline.) -/
def pyStem (s : String) : String :=
  let r := s.toList.reverse
  if r.contains '.' then String.mk ((r.dropWhile (fun c => c ≠ '.')).drop 1).reverse
  else s

example : pyStem "receptor.pdb" = "receptor" := by decide
example : pyStem "lig" = "lig" := by decide

/-- Embeds `GridParams` (`macromolecules/tasks.py` lines 86-100): integer grid
size triple and float grid center triple. -/
structure GridParams where
  size : Int × Int × Int
  center : ℚ × ℚ × ℚ
deriving DecidableEq, Repr

/-- Python truthiness of an optional string (`if size_str:` is false
for both `None` and the empty string). -/
def strTruthy : Option String → Bool
  | none => false
  | some s => ! s.isEmpty

/-- Embeds `GridParams.from_strings` (lines 92-100): parse the size triplet
when its text is truthy (its `ValueError` propagates), then the center
triplet likewise; produce a `GridParams` only when both are present. -/
def GridParams.from_strings (size_str center_str : Option String) :
    Except PyExc (Option GridParams) :=
  match (if strTruthy size_str then
      (GridParams.parse_triplet_int (size_str.getD "")).map some
    else .ok none) with
  | .error e => .error e
  | .ok sizeOpt =>
    match (if strTruthy center_str then
        (GridParams.parse_triplet_float (center_str.getD "")).map some
      else .ok none) with
    | .error e => .error e
    | .ok centerOpt =>
      match sizeOpt, centerOpt with
      | some sz, some c => .ok (some ⟨sz, c⟩)
      | _, _ => .ok none

/-- Embeds `DockingResult` (`macromolecules/tasks.py` lines 118-124) with the
source's default field values. -/
structure DockingResult where
  best_rmsd : Option ℚ := none
  best_energy : Option ℚ := none
  xml_path : Option String := none
  success : Bool := false
deriving DecidableEq, Repr

/-- Environment of one `run_docking` call: the outcome of the
AutoDock-GPU invocation — an exception (non-zero exit or timeout, both
re-raised by `run_capture` as `RuntimeError`), or success together with
the result of `_extract_xml_from_text` on its stdout (`none` when the
`<?xml` / `</autodock_gpu>` markers are absent) — and the
name-sorted `*.xml` files of the working directory with their parse
structure. -/
structure DockEnv where
  toolOutcome : Except PyExc (Option XmlText)
  xmlFiles : List (String × XmlText)

/-- Embeds `MoleculeProcessor.run_docking` (`macromolecules/tasks.py`
lines 337-381): absent ligand gives the empty result; every exception of the
tool invocation is caught and gives the empty result; when the tool
succeeds the result has `success = True` even if no report is found or
the report fails to parse — the best pose fields are filled only from a
successfully parsed report (stdout-embedded, else the last `*.xml`
file). -/
def MoleculeProcessor.run_docking (ligand_pdbqt : Option String)
    (env : DockEnv) : DockingResult :=
  match ligand_pdbqt with
  | none => {}
  | some _ =>
    match env.toolOutcome with
    | .error _ => {}
    | .ok stdoutXml =>
      let tp : Option XmlText × Option String :=
        match stdoutXml with
        | some t => (some t, some "docking_result.xml")
        | none =>
          match env.xmlFiles.getLast? with
          | some nt => (some nt.2, some nt.1)
          | none => (none, none)
      let base : DockingResult := { xml_path := tp.2, success := true }
      match tp.1 with
      | none => base
      | some t =>
        match MoleculeProcessor.parse_best_from_xml t with
        | some p => { base with best_rmsd := some p.1, best_energy := some p.2 }
        | none => base

/-- Arguments of the `prepare_macromolecule` task (lines 427-435). -/
structure PrepArgs where
  receptor_filename : String
  gridsize : Option String
  gridcenter : Option String
  ligand_filename : Option String
  macromolecule_id : Option String

/-- Oracle environment of one `prepare_macromolecule` attempt: the
outcome of `ToolPaths.get_instance` (a `RuntimeError` when a tool path
is missing), existence of the input files, the outcome of each external
invocation stage (the eleven GPF preparations and the autogrid runs are
each modelled by their first failure, as a failure aborts the
sequence), the `*.maps.fld` stems found after autogrid, the ligand
stage outcomes, the docking environment, and whether the linked
database row exists. -/
structure PrepWorld where
  toolsOutcome : Except PyExc Unit
  receptorExists : Bool
  prepReceptorRun : Except PyExc Unit
  receptorPdbqtAppears : Bool
  ligandExists : Bool
  ligandLines : List (List Char)
  gpfRun : Except PyExc Unit
  autogridRun : Except PyExc Unit
  fldStems : List String
  prepLigandRun : Except PyExc Unit
  ligandPdbqtAppears : Bool
  dockEnv : DockEnv
  dbRecordExists : Bool

/-- Embeds `MoleculeProcessor.prepare_ligand` (lines 209-227): a missing
ligand file yields `None` (no error); a failing conversion tool or a
missing output file raises. -/
def MoleculeProcessor.prepare_ligand (ligand_filename : String)
    (world : PrepWorld) : Except PyExc (Option String) :=
  if world.ligandExists = false then .ok none
  else
    match world.prepLigandRun with
    | .error e => .error e
    | .ok _ =>
      if world.ligandPdbqtAppears = false then
        .error (.runtimeError "Failed to generate ligand PDBQT")
      else .ok (some (pyStem ligand_filename ++ ".pdbqt"))

/-- Fallback grid-center resolution (lines 474-480): when no full grid
parameters were parsed and a ligand file name was supplied and exists,
compute the ligand centroid; combine it with the parsed size when both
are available (the size parse may raise `ValueError` here). -/
def gridFallback (args : PrepArgs) (world : PrepWorld) :
    Except PyExc (Option GridParams) :=
  if strTruthy args.ligand_filename && world.ligandExists then
    match MoleculeProcessor.calculate_ligand_center true world.ligandLines with
    | some c =>
      if strTruthy args.gridsize then
        match GridParams.parse_triplet_int (args.gridsize.getD "") with
        | .error e => .error e
        | .ok sz => .ok (some ⟨sz, c⟩)
      else .ok none
    | none => .ok none
  else .ok none

/-- Grid-parameter resolution of the task (lines 471-483): direct
parse, then ligand-centroid fallback, then the fatal
`ValueError("Grid parameters (size and center) are required")`. -/
def resolveGrid (args : PrepArgs) (world : PrepWorld) :
    Except PyExc GridParams :=
  match GridParams.from_strings args.gridsize args.gridcenter with
  | .error e => .error e
  | .ok (some g) => .ok g
  | .ok none =>
    match gridFallback args world with
    | .error e => .error e
    | .ok (some g) => .ok g
    | .ok none => .error (.valueError "Grid parameters (size and center) are required")

/-- Steps 1-5 of the task (lines 450-492): toolchain validation,
receptor conversion, grid resolution, GPF generation, autogrid and
location of the combined `*.maps.fld` descriptor (the FLD
post-processing of step 5 rewrites the file in place and cannot fail in
this model).  Returns the grid parameters and the descriptor file
name. -/
def prepFld (args : PrepArgs) (world : PrepWorld) :
    Except PyExc (GridParams × String) :=
  match world.toolsOutcome with
  | .error e => .error e
  | .ok _ =>
    if world.receptorExists = false then
      .error (.fileNotFoundError ("Receptor PDB not found: " ++ args.receptor_filename))
    else
      match world.prepReceptorRun with
      | .error e => .error e
      | .ok _ =>
        if world.receptorPdbqtAppears = false then
          .error (.runtimeError "Failed to generate receptor PDBQT")
        else
          match resolveGrid args world with
          | .error e => .error e
          | .ok gp =>
            match world.gpfRun with
            | .error e => .error e
            | .ok _ =>
              match world.autogridRun with
              | .error e => .error e
              | .ok _ =>
                match world.fldStems.head? with
                | none => .error (.runtimeError "No *.maps.fld file generated by autogrid4")
                | some stem => .ok (gp, stem ++ ".maps.fld")

/-- Embeds `_update_database` (`macromolecules/tasks.py` lines 547-589): under
`select_for_update` in one transaction, a missing row updates nothing;
otherwise exactly the fields with available values are written —
`rmsd_redocking` and `energia_original` only when the corresponding
value is not `None`, `pathFilefld` when the path string is truthy — and
the call reports whether any field was saved. -/
def update_database (recordExists : Bool) (rmsd energy : Option ℚ)
    (fld_path : String) : Bool × List String :=
  if recordExists = false then (false, [])
  else
    let fields :=
      (match rmsd with | some _ => ["rmsd_redocking"] | none => []) ++
      (match energy with | some _ => ["energia_original"] | none => []) ++
      (if fld_path.isEmpty then [] else ["pathFilefld"])
    (! fields.isEmpty, fields)

/-- The success payload of `prepare_macromolecule` (lines 516-533),
extended with the field list `_update_database` saved (the source logs
it). -/
structure PrepResult where
  ok : Bool
  receptor_pdbqt : String
  fld : String
  gridsize : Int × Int × Int
  gridcenter : ℚ × ℚ × ℚ
  ligand_pdbqt : Option String
  docking_ran : Bool
  docking_xml : Option String
  best_reference_rmsd : Option ℚ
  best_binding_energy : Option ℚ
  db_updated : Bool
  db_update_fields : List String
deriving DecidableEq, Repr

/-- Step 7 (lines 501-503): one docking trial when ligand conversion
produced a file, else the default empty `DockingResult`. -/
def prepDocking (ligand_pdbqt : Option String) (world : PrepWorld) :
    DockingResult :=
  match ligand_pdbqt with
  | some lp => MoleculeProcessor.run_docking (some lp) world.dockEnv
  | none => {}

/-- Step 8 guard (lines 507-513): the write-back runs only when a
truthy macromolecule id was supplied and the docking result reports
success. -/
def prepDb (args : PrepArgs) (world : PrepWorld) (docking : DockingResult)
    (fld : String) : Bool × List String :=
  if strTruthy args.macromolecule_id && docking.success then
    update_database world.dbRecordExists docking.best_rmsd
      docking.best_energy fld
  else (false, [])

/-- The body of the `prepare_macromolecule` task (lines 450-536):
steps 1-5 via `prepFld`, ligand conversion when a ligand file name is
truthy (step 6), one docking trial when the conversion produced a file
(step 7), and the database write-back (step 8). -/
def prepare_macromolecule (args : PrepArgs) (world : PrepWorld) :
    Except PyExc PrepResult :=
  match prepFld args world with
  | .error e => .error e
  | .ok gf =>
    match (if strTruthy args.ligand_filename then
        MoleculeProcessor.prepare_ligand (args.ligand_filename.getD "") world
      else .ok none) with
    | .error e => .error e
    | .ok ligand_pdbqt =>
      .ok
        { ok := true,
          receptor_pdbqt := pyStem args.receptor_filename ++ ".pdbqt",
          fld := gf.2,
          gridsize := gf.1.size,
          gridcenter := gf.1.center,
          ligand_pdbqt := ligand_pdbqt,
          docking_ran := (prepDocking ligand_pdbqt world).success,
          docking_xml := (prepDocking ligand_pdbqt world).xml_path,
          best_reference_rmsd := (prepDocking ligand_pdbqt world).best_rmsd,
          best_binding_energy := (prepDocking ligand_pdbqt world).best_energy,
          db_updated := (prepDb args world (prepDocking ligand_pdbqt world) gf.2).1,
          db_update_fields := (prepDb args world (prepDocking ligand_pdbqt world) gf.2).2 }

/-- Retry decision at the task boundary (lines 538-545): `ValueError`
and `FileNotFoundError` are re-raised without retry; every other
exception triggers `self.retry`. -/
def shouldRetry : PyExc → Bool
  | .valueError _ => false
  | .fileNotFoundError _ => false
  | _ => true

/-- Decorator bound `@shared_task(bind=True, max_retries=3,
default_retry_delay=60)` of line 426. -/
def prepare_max_retries : Nat := 3

/-- The fixed backoff delay, in seconds, of the task decorator. -/
def prepare_default_retry_delay : Nat := 60

/-- Observable outcome of one task attempt: success, a terminal
failure, or a re-enqueued retry. -/
inductive TaskOutcome where
  | done (r : PrepResult)
  | failed (e : PyExc)
  | retried (e : PyExc)
deriving DecidableEq, Repr

/-- One attempt of the Celery task including its retry decision. -/
def prepare_macromolecule_task (args : PrepArgs) (world : PrepWorld) :
    TaskOutcome :=
  match prepare_macromolecule args world with
  | .ok r => .done r
  | .error e => if shouldRetry e then .retried e else .failed e

lemma mapsfld_isEmpty_false (stem : String) :
    (stem ++ ".maps.fld").isEmpty = false := by
  cases hb : (stem ++ ".maps.fld").isEmpty
  · rfl
  · exfalso
    have hemp : stem ++ ".maps.fld" = "" := (String.isEmpty_iff _).1 hb
    have hlen := congrArg String.length hemp
    rw [String.length_append] at hlen
    have h9 : (".maps.fld" : String).length = 9 := rfl
    rw [h9] at hlen
    simp at hlen

/-- A successful `prepFld` names the descriptor after a `*.maps.fld`
stem autogrid produced, so the name is never the empty string. -/
lemma prepFld_fld_not_empty {args : PrepArgs} {world : PrepWorld}
    {gf : GridParams × String} (h : prepFld args world = .ok gf) :
    gf.2.isEmpty = false := by
  rw [prepFld] at h
  repeat' split at h
  all_goals simp at h
  subst h
  exact mapsfld_isEmpty_false _

/-- C4 (amended): in a successful preparation the linked record is
written only when a truthy macromolecule id was supplied AND the
docking trial ran with `success = True` AND the row exists; when the
write happens, the field-descriptor path is always among the saved
fields, and when no best pose was parsed it is the only saved field —
RMSD and energy are then not written.  (The write itself runs under
`select_for_update` inside one `transaction.atomic` block in the
source.) -/
theorem C4_db_writeback (args : PrepArgs) (world : PrepWorld) (r : PrepResult)
    (h : prepare_macromolecule args world = .ok r) :
    (r.db_updated = true ↔
      (strTruthy args.macromolecule_id = true ∧ r.docking_ran = true ∧
        world.dbRecordExists = true)) ∧
    (r.db_updated = true → "pathFilefld" ∈ r.db_update_fields) ∧
    (r.best_reference_rmsd = none → r.best_binding_energy = none →
      r.db_updated = true → r.db_update_fields = ["pathFilefld"]) := by
  rw [prepare_macromolecule] at h
  cases hf : prepFld args world with
  | error e => rw [hf] at h; exact absurd h (by simp)
  | ok gf =>
    rw [hf] at h
    have hfldne : gf.2.isEmpty = false := prepFld_fld_not_empty hf
    cases hl : (if strTruthy args.ligand_filename then
        MoleculeProcessor.prepare_ligand (args.ligand_filename.getD "") world
      else Except.ok none) with
    | error e => rw [hl] at h; exact absurd h (by simp)
    | ok lp =>
      rw [hl] at h
      simp only [Except.ok.injEq] at h
      subst h
      dsimp only
      rcases Bool.eq_false_or_eq_true (strTruthy args.macromolecule_id) with hid | hid
      case inr =>
        exact ⟨by simp [prepDb, hid], by simp [prepDb, hid], by simp [prepDb, hid]⟩
      rcases Bool.eq_false_or_eq_true ((prepDocking lp world).success) with hsucc | hsucc
      case inr =>
        exact ⟨by simp [prepDb, hid, hsucc], by simp [prepDb, hid, hsucc],
          by simp [prepDb, hid, hsucc]⟩
      rcases Bool.eq_false_or_eq_true world.dbRecordExists with hex | hex
      case inr =>
        exact ⟨by simp [prepDb, hid, hsucc, update_database, hex],
          by simp [prepDb, hid, hsucc, update_database, hex],
          by simp [prepDb, hid, hsucc, update_database, hex]⟩
      cases hrm : (prepDocking lp world).best_rmsd <;>
        cases hen : (prepDocking lp world).best_energy <;>
        refine ⟨?_, ?_, ?_⟩ <;>
        simp [prepDb, hid, hsucc, update_database, hex, hrm, hen, hfldne]

/-- Arguments of the C4 counterexample run: a linked record id is
supplied but no ligand file, so no docking trial runs. -/
def argsX4 : PrepArgs :=
  ⟨"receptor.pdb", some "60 60 60", some "10.0 10.0 10.0", none, some "m-1"⟩

/-- Environment of the C4 counterexample run: every pipeline stage
succeeds through field-descriptor generation and the database row
exists. -/
def worldX4 : PrepWorld :=
  ⟨.ok (), true, .ok (), true, false, [], .ok (), .ok (), ["receptor"], .ok (),
    true, ⟨.ok none, []⟩, true⟩

/-- The result record of the C4 counterexample run. -/
def rX4 : PrepResult :=
  { ok := true, receptor_pdbqt := "receptor.pdbqt", fld := "receptor.maps.fld",
    gridsize := (60, 60, 60),
    gridcenter := (mkRat 100 10, mkRat 100 10, mkRat 100 10),
    ligand_pdbqt := none, docking_ran := false, docking_xml := none,
    best_reference_rmsd := none, best_binding_energy := none,
    db_updated := false, db_update_fields := [] }

/-- C4 (counterexample): a preparation run with a linked record id that
succeeds through field-descriptor generation but runs no docking trial
(no ligand supplied) performs NO database write-back at all — the
stored RMSD, energy and field-descriptor-path fields are left
untouched, contradicting the claim that they are updated. -/
theorem C4_counterexample :
    prepare_macromolecule argsX4 worldX4 = .ok rX4 ∧
    strTruthy argsX4.macromolecule_id = true ∧
    rX4.fld = "receptor.maps.fld" ∧ rX4.db_updated = false ∧
    rX4.db_update_fields = [] := by
  refine ⟨by decide, rfl, rfl, rfl, rfl⟩

/-- Arguments of the C4 witness run: linked record id, ligand file. -/
def argsW4 : PrepArgs :=
  ⟨"rec.pdb", some "40,40,40", some "1.0 2.0 3.0", some "lig.pdb", some "m-2"⟩

/-- Environment of the C4 witness run: all stages succeed and the
docking trial produces a parsable one-run report. -/
def worldW4 : PrepWorld :=
  ⟨.ok (), true, .ok (), true, true, [], .ok (), .ok (), ["rec"], .ok (), true,
    ⟨.ok (some (.doc [⟨.num 1, .num (-7), .intv 1⟩])), []⟩, true⟩

/-- The result record of the C4 witness run. -/
def rW4 : PrepResult :=
  { ok := true, receptor_pdbqt := "rec.pdbqt", fld := "rec.maps.fld",
    gridsize := (40, 40, 40),
    gridcenter := (mkRat 10 10, mkRat 20 10, mkRat 30 10),
    ligand_pdbqt := some "lig.pdbqt", docking_ran := true,
    docking_xml := some "docking_result.xml",
    best_reference_rmsd := some 1, best_binding_energy := some (-7),
    db_updated := true,
    db_update_fields := ["rmsd_redocking", "energia_original", "pathFilefld"] }

/-- C4 (witness): the amended theorem applied to the witness run. -/
theorem C4_db_writeback_witness :
    (rW4.db_updated = true ↔
      (strTruthy argsW4.macromolecule_id = true ∧ rW4.docking_ran = true ∧
        worldW4.dbRecordExists = true)) ∧
    (rW4.db_updated = true → "pathFilefld" ∈ rW4.db_update_fields) ∧
    (rW4.best_reference_rmsd = none → rW4.best_binding_energy = none →
      rW4.db_updated = true → rW4.db_update_fields = ["pathFilefld"]) :=
  C4_db_writeback argsW4 worldW4 rW4 (by decide)

/-- C10 (counterexample): when the docking tool itself succeeds but its
report is unparsable, `run_docking` returns `success = True` with an
XML path and no best-pose fields — not the empty
`DockingResult(success=False)` the claim requires for a parse
failure. -/
theorem C10_counterexample :
    MoleculeProcessor.run_docking (some "lig.pdbqt") ⟨.ok (some .unparsable), []⟩ =
      { best_rmsd := none, best_energy := none,
        xml_path := some "docking_result.xml", success := true } := rfl

/-- C10 (amended): the single-trial docking step never propagates an
exception.  On a tool failure or timeout it returns the empty
`DockingResult` (`success = False`, all best-pose fields `None`); when
the tool ran, `success = True` even when the report is missing or
unparsable (then the best-pose fields stay `None`).  Hence a docking
failure after successful field-descriptor generation cannot fail the
receptor preparation: the task still returns a success payload with
`docking_ran = False` and no write-back.  In contrast, a ligand
conversion failure raises and fails the task attempt. -/
theorem C10_docking_isolation :
    (∀ (lig : Option String) (env : DockEnv) (e : PyExc),
      env.toolOutcome = .error e →
      MoleculeProcessor.run_docking lig env =
        { best_rmsd := none, best_energy := none, xml_path := none,
          success := false }) ∧
    (∀ (lig : String) (env : DockEnv) (s : Option XmlText),
      env.toolOutcome = .ok s →
      (MoleculeProcessor.run_docking (some lig) env).success = true) ∧
    (∀ (args : PrepArgs) (world : PrepWorld) (gf : GridParams × String)
        (lp : String) (e : PyExc),
      prepFld args world = .ok gf →
      strTruthy args.ligand_filename = true →
      MoleculeProcessor.prepare_ligand (args.ligand_filename.getD "") world =
        .ok (some lp) →
      world.dockEnv.toolOutcome = .error e →
      ∃ r, prepare_macromolecule args world = .ok r ∧ r.ok = true ∧
        r.docking_ran = false ∧ r.best_reference_rmsd = none ∧
        r.best_binding_energy = none ∧ r.db_updated = false) ∧
    (∀ (lf : String) (world : PrepWorld) (e : PyExc),
      world.ligandExists = true → world.prepLigandRun = .error e →
      MoleculeProcessor.prepare_ligand lf world = .error e) := by
  refine ⟨?_, ?_, ?_, ?_⟩
  · intro lig env e he
    cases lig with
    | none => rfl
    | some l => rw [MoleculeProcessor.run_docking, he]
  · intro lig env s hs
    rw [MoleculeProcessor.run_docking, hs]
    dsimp only
    cases s with
    | some t =>
      dsimp only
      cases MoleculeProcessor.parse_best_from_xml t with
      | none => rfl
      | some p => rfl
    | none =>
      dsimp only
      cases env.xmlFiles.getLast? with
      | none => rfl
      | some nt =>
        dsimp only
        cases MoleculeProcessor.parse_best_from_xml nt.2 with
        | none => rfl
        | some p => rfl
  · intro args world gf lp e hf hlt hpl he
    rw [prepare_macromolecule, hf]
    rw [if_pos hlt, hpl]
    have hdock : prepDocking (some lp) world =
        { best_rmsd := none, best_energy := none, xml_path := none,
          success := false } := by
      rw [prepDocking, MoleculeProcessor.run_docking, he]
    refine ⟨_, rfl, rfl, ?_, ?_, ?_, ?_⟩
    · show (prepDocking (some lp) world).success = false
      rw [hdock]
    · show (prepDocking (some lp) world).best_rmsd = none
      rw [hdock]
    · show (prepDocking (some lp) world).best_energy = none
      rw [hdock]
    · show (prepDb args world (prepDocking (some lp) world) gf.2).1 = false
      rw [prepDb, hdock]
      simp
  · intro lf world e h1 h2
    rw [MoleculeProcessor.prepare_ligand, h1]
    rw [if_neg (by simp), h2]

/-- Environment of the C10 witness's ligand-conversion failure: the
ligand file exists but its conversion tool invocation fails. -/
def worldW10 : PrepWorld :=
  ⟨.ok (), true, .ok (), true, true, [], .ok (), .ok (), ["rec"],
    .error (.runtimeError "prepare_ligand_lig failed (rc=1)"), true,
    ⟨.error (.runtimeError "autodock_gpu_lig timeout after 600s"), []⟩, true⟩

/-- C10 (witness): the amended theorem applied to concrete
environments. -/
theorem C10_docking_isolation_witness :
    MoleculeProcessor.run_docking (some "lig.pdbqt")
        ⟨.error (.runtimeError "autodock_gpu_lig timeout after 600s"), []⟩ =
      { best_rmsd := none, best_energy := none, xml_path := none,
        success := false } ∧
    MoleculeProcessor.prepare_ligand "lig.pdb" worldW10 =
      .error (.runtimeError "prepare_ligand_lig failed (rc=1)") :=
  ⟨C10_docking_isolation.1 (some "lig.pdbqt") _ _ rfl,
    C10_docking_isolation.2.2.2 "lig.pdb" worldW10 _ rfl rfl⟩

/-- A grid text with other than three tokens makes the size-triplet
parse raise its format `ValueError`. -/
lemma parse_triplet_int_tokens_ne3 {s : String} (h : (pyTokens s).length ≠ 3) :
    GridParams.parse_triplet_int s =
      .error (.valueError ("Expected 3 integers, got: " ++ s)) := by
  rw [GridParams.parse_triplet_int]
  cases htk : pyTokens s with
  | nil => rfl
  | cons a t1 =>
    cases t1 with
    | nil => rfl
    | cons b t2 =>
      cases t2 with
      | nil => rfl
      | cons c t3 =>
        cases t3 with
        | nil => exact absurd (by rw [htk]; rfl) h
        | cons d t4 => rfl

/-- C8: in receptor preparation, `ValueError` and `FileNotFoundError` —
the exceptions raised for fatal input errors such as a missing receptor
file or a malformed grid specification — are never retried, while every
other exception is retried by the enqueuing layer, whose decorator
fixes 3 as the attempt bound and 60 seconds as the backoff delay. -/
theorem C8_retry_policy :
    (∀ (args : PrepArgs) (world : PrepWorld) (m : String),
      prepare_macromolecule args world = .error (.valueError m) →
      prepare_macromolecule_task args world = .failed (.valueError m)) ∧
    (∀ (args : PrepArgs) (world : PrepWorld) (m : String),
      prepare_macromolecule args world = .error (.fileNotFoundError m) →
      prepare_macromolecule_task args world = .failed (.fileNotFoundError m)) ∧
    (∀ (args : PrepArgs) (world : PrepWorld) (e : PyExc),
      prepare_macromolecule args world = .error e → shouldRetry e = true →
      prepare_macromolecule_task args world = .retried e) ∧
    (∀ m, shouldRetry (.runtimeError m) = true ∧
      shouldRetry (.timeoutExpired m) = true ∧
      shouldRetry (.calledProcessError m) = true ∧
      shouldRetry (.xmlParseError m) = true) ∧
    prepare_max_retries = 3 ∧ prepare_default_retry_delay = 60 ∧
    (∀ (args : PrepArgs) (world : PrepWorld),
      world.toolsOutcome = .ok () → world.receptorExists = false →
      prepare_macromolecule args world =
        .error (.fileNotFoundError
          ("Receptor PDB not found: " ++ args.receptor_filename))) ∧
    (∀ (args : PrepArgs) (world : PrepWorld) (s : String),
      world.toolsOutcome = .ok () → world.receptorExists = true →
      world.prepReceptorRun = .ok () → world.receptorPdbqtAppears = true →
      args.gridsize = some s → s.isEmpty = false → (pyTokens s).length ≠ 3 →
      prepare_macromolecule args world =
        .error (.valueError ("Expected 3 integers, got: " ++ s))) := by
  refine ⟨?_, ?_, ?_, ?_, rfl, rfl, ?_, ?_⟩
  · intro args world m h
    rw [prepare_macromolecule_task, h]
    rfl
  · intro args world m h
    rw [prepare_macromolecule_task, h]
    rfl
  · intro args world e h hr
    rw [prepare_macromolecule_task, h]
    dsimp only
    rw [if_pos hr]
  · intro m
    exact ⟨rfl, rfl, rfl, rfl⟩
  · intro args world htools hre
    rw [prepare_macromolecule, prepFld, htools]
    dsimp only
    rw [hre]
    rfl
  · intro args world s htools hre hrun hpdbqt hgs hsne htok
    have hval : GridParams.from_strings args.gridsize args.gridcenter =
        .error (.valueError ("Expected 3 integers, got: " ++ s)) := by
      rw [GridParams.from_strings, hgs]
      rw [if_pos (by simp [strTruthy, hsne])]
      rw [show (some s).getD "" = s from rfl, parse_triplet_int_tokens_ne3 htok]
      rfl
    rw [prepare_macromolecule, prepFld, htools]
    dsimp only
    rw [hre, if_neg (by simp), hrun]
    dsimp only
    rw [hpdbqt, if_neg (by simp)]
    rw [resolveGrid, hval]

/-- Arguments and environment of the C8 witness: a missing receptor
file under an otherwise healthy toolchain. -/
def argsW8 : PrepArgs := ⟨"rec.pdb", some "60 60 60", none, none, none⟩

/-- Environment of the C8 witness run. -/
def worldW8 : PrepWorld :=
  ⟨.ok (), false, .ok (), true, false, [], .ok (), .ok (), ["rec"], .ok (),
    true, ⟨.ok none, []⟩, true⟩

/-- C8 (witness): the theorem applied to the missing-receptor run, plus
the retry classification of a tool `RuntimeError`. -/
theorem C8_retry_policy_witness :
    prepare_macromolecule argsW8 worldW8 =
      .error (.fileNotFoundError "Receptor PDB not found: rec.pdb") ∧
    prepare_macromolecule_task argsW8 worldW8 =
      .failed (.fileNotFoundError "Receptor PDB not found: rec.pdb") ∧
    shouldRetry (.runtimeError "autogrid_1 failed (rc=1)") = true ∧
    prepare_max_retries = 3 ∧ prepare_default_retry_delay = 60 := by
  have h7 := C8_retry_policy.2.2.2.2.2.2.1 argsW8 worldW8 rfl rfl
  exact ⟨h7, C8_retry_policy.2.1 argsW8 worldW8 _ h7,
    (C8_retry_policy.2.2.2.1 "autogrid_1 failed (rc=1)").1,
    C8_retry_policy.2.2.2.2.1, C8_retry_policy.2.2.2.2.2.1⟩
